import Mathlib

/-!
Shallow embedding of the cost/emission estimation and carrier-optimization
engine of the Demo-API-Server repository (src/flask_mock_api/app.py).

Python dictionaries with a fixed set of possible keys are modelled as Lean
structures whose fields are `Option`-typed: `none` means the key is absent.
Python `float` values are modelled as exact rationals (`ℚ`); `round(x, n)`
is modelled as round-half-to-even on the scaled rational, the idealisation
of the platform rounding the spec asks to reproduce.  Code that can raise a
Python exception is modelled in `Except PyExc`.  The flat-file JSON store
is modelled by passing the decoded tables (lists of records / key-value
pairs) explicitly; reading a file is the identity on that parameter, and a
route's persistence effect is the second component of the pair it returns.
-/

set_option maxRecDepth 100000

namespace FlaskMockApi

/-- Python exceptions that the modelled code can raise. -/
inductive PyExc where
  | keyError (key : String)
  | nameError (ident : String)
  | valueError
  | typeError
deriving DecidableEq, Repr

/-- `try: e except Exception: None` on an `Except`-modelled expression. -/
def tryOrNone {α : Type} : Except PyExc α → Option α
  | .ok a => some a
  | .error _ => none

/-- Python `d[key]` on an optional field: `KeyError` when the key is absent. -/
def pyIndexS (v : Option String) (key : String) : Except PyExc String :=
  match v with
  | some s => .ok s
  | none => .error (.keyError key)

/-- Python `d[key]` on an optional numeric field. -/
def pyIndexQ (v : Option ℚ) (key : String) : Except PyExc ℚ :=
  match v with
  | some q => .ok q
  | none => .error (.keyError key)

/-- Truthiness of an optional Python string (`None` and `""` are falsy). -/
def pyTruthyStrO : Option String → Bool
  | none => false
  | some s => s ≠ ""

/-- Truthiness of an optional Python int (`None` and `0` are falsy). -/
def pyTruthyIntO : Option ℤ → Bool
  | none => false
  | some n => n ≠ 0

/-- Truthiness of an optional Python number (`None` and `0` are falsy). -/
def pyTruthyQO : Option ℚ → Bool
  | none => false
  | some q => q ≠ 0

/-- Round a rational to the nearest integer, ties to even
(the behaviour of Python `round` on an exactly representable half). -/
def roundHalfEvenZ (q : ℚ) : ℤ :=
  let n := q.floor
  if q - n < 1/2 then n
  else if q - n > 1/2 then n + 1
  else if n % 2 = 0 then n else n + 1

/-- Python `round(q, ndigits)` on the rational idealisation of a float. -/
def pyRound (q : ℚ) (ndigits : ℕ) : ℚ :=
  (roundHalfEvenZ (q * 10 ^ ndigits) : ℚ) / 10 ^ ndigits

/-- A record of `carriers.json`: a Python dict whose keys may be absent. -/
structure Carrier where
  name : Option String := none
  mode : Option String := none
  base_cost_per_km : Option ℚ := none
  avg_transit_days : Option ℤ := none
deriving DecidableEq, Repr

/-- Truthiness of a carrier dict: a dict is truthy iff it is non-empty. -/
def carrierTruthy (c : Carrier) : Bool :=
  c.name.isSome || c.mode.isSome || c.base_cost_per_km.isSome || c.avg_transit_days.isSome

/-- Truthiness of `carrier_obj` which may also be `None`. -/
def carrierTruthyO : Option Carrier → Bool
  | none => false
  | some c => carrierTruthy c

/-- `get_distance(origin, destination)`: lookup in the distances table with
key `f"{origin}-{destination}"`, falling back to 1000 km when absent. -/
def get_distance (distances : List (String × ℚ)) (origin destination : String) : ℚ :=
  match distances.find? (fun p => p.1 == origin ++ "-" ++ destination) with
  | some p => p.2
  | none => 1000

/-- `carrier_lookup(name)`: first carrier whose `name` key equals the
argument (Python `c.get('name') == name`, where both sides may be `None`). -/
def carrier_lookup (carriers : List Carrier) (name : Option String) : Option Carrier :=
  carriers.find? (fun c => c.name == name)

/-- `list_alternative_carriers(exclude)`: all carriers whose name differs. -/
def list_alternative_carriers (carriers : List Carrier) (exclude : Option String) : List Carrier :=
  carriers.filter (fun c => c.name != exclude)

/-- `get_emission_factor(mode)`: `(factor, source)`; default factor 0.1 when
the mode is `None`, empty, or not a key of the table.  Table values are
modelled as numbers, so the `float(...)` conversion always succeeds and the
`except` branch of the source is not reachable in the model. -/
def get_emission_factor (ef_map : List (String × ℚ)) (mode : Option String) : ℚ × String :=
  match mode with
  | some m =>
      if m ≠ "" then
        match ef_map.find? (fun p => p.1 == m) with
        | some p => (p.2, "internal:emission_factors.json")
        | none => (1/10, "default:0.1 (missing or unknown mode)")
      else (1/10, "default:0.1 (missing or unknown mode)")
  | none => (1/10, "default:0.1 (missing or unknown mode)")

/-- The provenance dict built by `calc_emission_with_provenance`. -/
structure EmissionDetails where
  method : String
  weight_tons : ℚ
  distance_km : ℚ
  mode : Option String
  emission_factor_kgco2e_per_ton_km : ℚ
  factor_source : String
deriving DecidableEq, Repr

/-- `calc_emission_with_provenance(weight_kg, distance_km, mode, factor_override)`. -/
def calc_emission_with_provenance (ef_map : List (String × ℚ)) (weight_kg distance_km : ℚ)
    (mode : Option String := none) (factor_override : Option ℚ := none) : ℚ × EmissionDetails :=
  let tons := weight_kg / 1000
  let efs : ℚ × String :=
    match factor_override with
    | some f => (f, "override")
    | none => get_emission_factor ef_map mode
  let emission := pyRound (tons * distance_km * efs.1) 2
  (emission,
    { method := "weight_tons * distance_km * emission_factor_kgco2e_per_ton_km"
      weight_tons := pyRound tons 6
      distance_km := distance_km
      mode := mode
      emission_factor_kgco2e_per_ton_km := efs.1
      factor_source := efs.2 })

/-- `calc_emission`: backward-compatible wrapper returning just the number. -/
def calc_emission (ef_map : List (String × ℚ)) (weight_kg distance_km : ℚ)
    (mode : Option String := none) (factor_override : Option ℚ := none) : ℚ :=
  (calc_emission_with_provenance ef_map weight_kg distance_km mode factor_override).1

/-- `calc_cost(distance_km, base_cost_per_km, surcharges_usd=0)`. -/
def calc_cost (distance_km base_cost_per_km : ℚ) (surcharges_usd : ℚ := 0) : ℚ :=
  pyRound (distance_km * base_cost_per_km + surcharges_usd) 2

/-- `(mode or '').lower()` as a list of characters. -/
def lowerStr (s : String) : List Char :=
  s.data.map Char.toLower

/-- `default_transit_days_for_mode(mode)`: per-mode default, else 5. -/
def default_transit_days_for_mode (mode : Option String) : ℤ :=
  let m := lowerStr (mode.getD "")
  if m = "air".data then 2
  else if m = "road".data then 5
  else if m = "rail".data then 4
  else if m = "sea".data then 14
  else 5

/-- `compute_transit_days_for_carrier(carrier_obj)`: `if not carrier_obj:
return None` is a truthiness test, so it also returns `None` for a present
but empty carrier dict; otherwise the stated `avg_transit_days`, else the
mode default. -/
def compute_transit_days_for_carrier (carrier_obj : Option Carrier) : Option ℤ :=
  match carrier_obj with
  | none => none
  | some c =>
      if carrierTruthy c then
        some (c.avg_transit_days.getD (default_transit_days_for_mode c.mode))
      else none

/-! ### Dates and the SLA machinery -/

/-- A Python `datetime.date` value. -/
structure PyDate where
  year : ℕ
  month : ℕ
  day : ℕ
deriving DecidableEq, Repr

def isLeap (y : ℕ) : Bool :=
  (y % 4 == 0 && y % 100 != 0) || y % 400 == 0

def daysInMonth (y m : ℕ) : ℕ :=
  if m = 2 then (if isLeap y then 29 else 28)
  else if m = 4 ∨ m = 6 ∨ m = 9 ∨ m = 11 then 30
  else 31

/-- Accumulate the value of a run of decimal digits; `none` on a non-digit. -/
def digitsVal : List Char → ℕ → Option ℕ
  | [], acc => some acc
  | c :: rest, acc =>
      if c.isDigit then digitsVal rest (acc * 10 + (c.toNat - 48)) else none

def digitsToNat (cs : List Char) : Option ℕ :=
  if cs.isEmpty then none else digitsVal cs 0

/-- Split a character list on the dash separator. -/
def splitDash : List Char → List (List Char)
  | [] => [[]]
  | c :: rest =>
      let r := splitDash rest
      if c = '-' then [] :: r
      else
        match r with
        | [] => [[c]]
        | g :: gs => (c :: g) :: gs

/-- `datetime.strptime(s, "%Y-%m-%d").date()`: three dash-separated runs of
digits (`%Y` at most 4 digits, `%m`/`%d` at most 2), validated against the
calendar; `none` models the `ValueError` on malformed input. -/
def strptimeYMD (s : String) : Option PyDate :=
  match splitDash s.data with
  | [ys, ms, ds] =>
      match digitsToNat ys, digitsToNat ms, digitsToNat ds with
      | some y, some m, some d =>
          if 1 ≤ y ∧ y ≤ 9999 ∧ ys.length ≤ 4 ∧ 1 ≤ m ∧ m ≤ 12 ∧ ms.length ≤ 2
              ∧ 1 ≤ d ∧ d ≤ daysInMonth y m ∧ ds.length ≤ 2
          then some ⟨y, m, d⟩ else none
      | _, _, _ => none
  | _ => none

def daysBeforeMonth (y m : ℕ) : ℕ :=
  (List.range (m - 1)).foldl (fun acc i => acc + daysInMonth y (i + 1)) 0

/-- `date.toordinal()`: proleptic-Gregorian ordinal.  Python `date` values
are totally ordered by this ordinal, so `d1 <= d2` is compared through it. -/
def pyDateToOrdinal (d : PyDate) : ℤ :=
  let y1 : ℤ := (d.year : ℤ) - 1
  365 * y1 + y1 / 4 - y1 / 100 + y1 / 400 + (daysBeforeMonth d.year d.month : ℤ) + (d.day : ℤ)

/-- `timedelta(days=n)`: app.py line 4 imports only `datetime` and `date`
from the `datetime` module, so the name `timedelta` is unbound and
evaluating this expression raises `NameError`. -/
def timedeltaDays (_days : ℤ) : Except PyExc ℤ :=
  .error (.nameError "timedelta")

def strptimeE (s : String) : Except PyExc PyDate :=
  match strptimeYMD s with
  | some d => .ok d
  | none => .error .valueError

/-- The `try` block of the inline SLA checks in `optimization` and
`simulate`: `due = strptime(due_str); arrival = date.today() +
timedelta(days=int(transit)); arrival <= due`.  `today` is the ordinal of
`date.today()`. -/
def slaTryBlock (today : ℤ) (due_str : String) (transit : ℤ) : Except PyExc Bool := do
  let due ← strptimeE due_str
  let delta ← timedeltaDays transit
  let arrival := today + delta
  pure (decide (arrival ≤ pyDateToOrdinal due))

/-- `sla_met(transit_days, sla_due_date_str)` (app.py lines 274-283).  The
`try` wraps only the `strptime` call; line 282 (`arrival = date.today() +
timedelta(...)`) sits outside it and raises `NameError` out of the function
because `timedelta` is not imported. -/
def sla_met (today : ℤ) (transit_days : Option ℤ) (sla_due_date_str : Option String) :
    Except PyExc (Option Bool) :=
  if !pyTruthyIntO transit_days || !pyTruthyStrO sla_due_date_str then .ok none
  else
    match strptimeYMD (sla_due_date_str.getD "") with
    | none => .ok none
    | some due => do
        let delta ← timedeltaDays (transit_days.getD 0)
        let arrival := today + delta
        pure (decide (arrival ≤ pyDateToOrdinal due))

/-! ### Policies -/

/-- The policy-related fields of a request (JSON body or query string),
before normalization.  Numeric fields are modelled as already-parsed
numbers (the source's `float(...)` conversions are the identity here). -/
structure RawPolicy where
  sla_due_date : Option String := none
  sla_priority : Option String := none
  budget_cap_usd : Option ℚ := none
  emission_reduction_min_pct : Option ℚ := none
  budget_increase_max_pct : Option ℚ := none
deriving DecidableEq, Repr

/-- The normalized policy dict returned by `parse_policy_from_request`.
`sla_priority`, `emission_reduction_min_pct` and `budget_increase_max_pct`
always carry a value because the source applies defaults. -/
structure Policy where
  sla_due_date : Option String
  sla_priority : String
  budget_cap_usd : Option ℚ
  emission_reduction_min_pct : ℚ
  budget_increase_max_pct : ℚ
deriving DecidableEq, Repr

/-- `parse_policy_from_request` (app.py lines 243-267). -/
def parse_policy_from_request (raw : RawPolicy) : Policy :=
  let pol : Policy :=
    { sla_due_date := raw.sla_due_date
      sla_priority :=
        match raw.sla_priority with
        | some s => if s ≠ "" then s else "normal"
        | none => "normal"
      budget_cap_usd := raw.budget_cap_usd
      emission_reduction_min_pct := raw.emission_reduction_min_pct.getD 30
      budget_increase_max_pct := raw.budget_increase_max_pct.getD 10 }
  if pyTruthyStrO pol.sla_due_date && (strptimeYMD (pol.sla_due_date.getD "")).isNone
  then { pol with sla_due_date := none } else pol

/-- `if policy:` — the dict built by `parse_policy_from_request` always has
five keys, and a non-empty dict is truthy, so this test is always true. -/
def policyTruthy (_p : Policy) : Bool := true

/-- `any(policy.values())`: Python truthiness of each of the five values. -/
def anyPolicyValues (p : Policy) : Bool :=
  pyTruthyStrO p.sla_due_date || !(p.sla_priority == "") || pyTruthyQO p.budget_cap_usd ||
    !(p.emission_reduction_min_pct == 0) || !(p.budget_increase_max_pct == 0)

/-! ### The optimization endpoint -/

/-- The per-alternative `policy_alignment` dict of the optimization route. -/
structure PolicyEval where
  emission_reduction_pct_vs_current : Option ℚ
  meets_min_emission_reduction : Bool
  within_budget_cap : Option Bool
  within_budget_increase_pct : Option Bool
  sla_met : Option Bool
deriving DecidableEq, Repr

/-- The policy evaluation of one alternative (app.py lines 431-459). -/
def mkPolicyEval (pol : Policy) (current_emission current_cost : ℚ) (today : ℤ)
    (alt_emission alt_cost : ℚ) (alt_transit : Option ℤ) : PolicyEval :=
  let red_pct : Option ℚ :=
    if current_emission ≠ 0 then
      some (pyRound ((current_emission - alt_emission) / current_emission * 100) 2)
    else none
  let budget_ok : Option Bool :=
    match pol.budget_cap_usd with
    | some cap => some (alt_cost ≤ cap)
    | none => none
  -- `if current_cost and policy.get('budget_increase_max_pct') is not None:` —
  -- the parsed policy always carries a numeric `budget_increase_max_pct`, so
  -- the second conjunct is always true and the test is current_cost truthiness
  let budget_increase_ok : Option Bool :=
    if current_cost ≠ 0 then
      some (alt_cost ≤ current_cost * (1 + pol.budget_increase_max_pct / 100))
    else none
  let sla_ok : Option Bool :=
    if pyTruthyStrO pol.sla_due_date && alt_transit.isSome then
      tryOrNone (slaTryBlock today (pol.sla_due_date.getD "") (alt_transit.getD 0))
    else none
  { emission_reduction_pct_vs_current := red_pct
    meets_min_emission_reduction :=
      match red_pct with
      | some r => r ≥ pol.emission_reduction_min_pct
      | none => false
    within_budget_cap := budget_ok
    within_budget_increase_pct := budget_increase_ok
    sla_met := sla_ok }

/-- One element of the `alternatives` list in the optimization response. -/
structure AltEntry where
  carrier : String
  mode : String
  distance_km : ℚ
  emission_kg_co2e : ℚ
  emission_calculation : EmissionDetails
  estimated_cost_usd : ℚ
  transit_days : Option ℤ
  policy_alignment : Option PolicyEval
deriving DecidableEq, Repr

/-- Building one alternative entry (app.py lines 424-470).  `alt['mode']`,
`alt['base_cost_per_km']` and `alt['name']` are direct dict indexings and
can raise `KeyError`, in the order the source evaluates them. -/
def mkAltEntry (ef_map : List (String × ℚ)) (pol : Policy)
    (weight_kg distance_km current_emission current_cost : ℚ) (today : ℤ)
    (alt : Carrier) : Except PyExc AltEntry := do
  let altMode ← pyIndexS alt.mode "mode"
  let em := calc_emission_with_provenance ef_map weight_kg distance_km (some altMode)
  let altRate ← pyIndexQ alt.base_cost_per_km "base_cost_per_km"
  let alt_cost := calc_cost distance_km altRate
  let alt_transit := compute_transit_days_for_carrier (some alt)
  -- `if policy:` is always true (five-key dict), so policy_eval is always built
  let pe := mkPolicyEval pol current_emission current_cost today em.1 alt_cost alt_transit
  let altName ← pyIndexS alt.name "name"
  pure
    { carrier := altName
      mode := altMode
      distance_km := distance_km
      emission_kg_co2e := em.1
      emission_calculation := em.2
      estimated_cost_usd := alt_cost
      transit_days := alt_transit
      -- `"policy_alignment": policy_eval if policy else None` — policy is truthy
      policy_alignment := some pe }

/-- `meets_policy(x)` (app.py lines 476-493).  `pa = x.get('policy_alignment')
or {}`: on a falsy value every later `.get` yields `None`.  The emission
check is always appended; since the parsed policy always has a numeric
`budget_increase_max_pct`, the budget `elif` chain degenerates to "cap and
increase" when a cap was supplied and "increase only" otherwise; the SLA
check is appended only when a due date survived parsing. -/
def meets_policy (pol : Policy) (x : AltEntry) : Bool :=
  let meets : Bool := match x.policy_alignment with
    | some pa => pa.meets_min_emission_reduction
    | none => false
  let cap : Option Bool := match x.policy_alignment with
    | some pa => pa.within_budget_cap
    | none => none
  let inc : Option Bool := match x.policy_alignment with
    | some pa => pa.within_budget_increase_pct
    | none => none
  let sla : Option Bool := match x.policy_alignment with
    | some pa => pa.sla_met
    | none => none
  meets &&
    (if pol.budget_cap_usd.isSome then cap == some true && inc == some true
     else inc == some true) &&
    (if pyTruthyStrO pol.sla_due_date then sla == some true else true)

/-- The candidate set of the recommendation phase (app.py lines 473-497):
pre-filter when `policy and current_emission` is truthy (the parsed policy
dict is always truthy, so this is a test on `current_emission`), falling
back to the full alternative list when the filter is empty. -/
def chosenCandidates (pol : Policy) (current_emission : ℚ) (alternatives : List AltEntry) :
    List AltEntry :=
  if current_emission ≠ 0 then
    let filtered := alternatives.filter (meets_policy pol)
    if filtered.isEmpty then alternatives else filtered
  else alternatives

/-- Strict lexicographic comparison of `(emission_kg_co2e, estimated_cost_usd)`. -/
def altLtB (x y : AltEntry) : Bool :=
  x.emission_kg_co2e < y.emission_kg_co2e ||
    (x.emission_kg_co2e == y.emission_kg_co2e && x.estimated_cost_usd < y.estimated_cost_usd)

/-- `sorted(candidates, key=lambda x: (emission, cost))[0]` when candidates
is non-empty, else `None`.  Python's sort is stable, so the selected element
is the first one attaining the lexicographic minimum of the key. -/
def selectRecommended : List AltEntry → Option AltEntry
  | [] => none
  | x :: xs => some (xs.foldl (fun best c => if altLtB c best then c else best) x)

/-- A record of `shipments.json`.  `shipment_id`, `origin`, `destination`
and `weight_kg` are indexed directly (`s['origin']`, ...) by every modelled
operation and are therefore mandatory; every other key may be absent.
`original_carrier` is doubly optional: the outer `Option` is key presence
(`'original_carrier' in s`), the inner one the possibly-`None` value copied
from `s.get('carrier')`. -/
structure Shipment where
  shipment_id : String
  origin : String
  destination : String
  weight_kg : ℚ
  carrier : Option String := none
  cost_usd : Option ℚ := none
  status : Option String := none
  distance_km : Option ℚ := none
  original_carrier : Option (Option String) := none
  original_cost_usd : Option ℚ := none
  original_emission_kg_co2e : Option ℚ := none
  original_emission_details : Option EmissionDetails := none
  current_cost_usd : Option ℚ := none
  current_emission_kg_co2e : Option ℚ := none
  current_emission_details : Option EmissionDetails := none
  approver_comments : Option String := none
deriving DecidableEq, Repr

/-- The `current` block of the optimization (and simulate) response. -/
structure CurrentBlock where
  carrier : Option String
  mode : Option String
  distance_km : ℚ
  emission_kg_co2e : ℚ
  emission_calculation : EmissionDetails
  cost_usd : ℚ
  transit_days : Option ℤ
deriving DecidableEq, Repr

/-- The optimization response (app.py lines 503-517). -/
structure OptResponse where
  shipment_id : String
  policy : Option Policy
  current : CurrentBlock
  alternatives : List AltEntry
  recommended : Option AltEntry
deriving DecidableEq, Repr

/-- The `current` block computation of the optimization route (app.py lines
410-420).  `if current_carrier:` is a dict truthiness test; in the truthy
branch `current_carrier['mode']` and `current_carrier['base_cost_per_km']`
are direct indexings, evaluated in source order (emission line 412 before
cost line 413). -/
def optCurrentBlock (ef_map : List (String × ℚ)) (carriers : List Carrier)
    (s : Shipment) (distance_km : ℚ) : Except PyExc CurrentBlock :=
  let cur := carrier_lookup carriers s.carrier
  -- the `else` branch of `if current_carrier:` (lines 416-420)
  let unassigned : Except PyExc CurrentBlock :=
    let em := calc_emission_with_provenance ef_map s.weight_kg distance_km none
    .ok
      { carrier := s.carrier
        mode := none
        distance_km := distance_km
        emission_kg_co2e := em.1
        emission_calculation := em.2
        cost_usd := s.cost_usd.getD 0
        transit_days := none }
  match cur with
  | some c =>
      if carrierTruthy c then do
        let m ← pyIndexS c.mode "mode"
        let em := calc_emission_with_provenance ef_map s.weight_kg distance_km (some m)
        let rate ← pyIndexQ c.base_cost_per_km "base_cost_per_km"
        let cost := s.cost_usd.getD (calc_cost distance_km rate)
        pure
          { carrier := s.carrier
            mode := some m
            distance_km := distance_km
            emission_kg_co2e := em.1
            emission_calculation := em.2
            cost_usd := cost
            transit_days := compute_transit_days_for_carrier cur }
      else unassigned
  | none => unassigned

/-- The optimization endpoint after the shipment has been found (app.py
lines 405-517): parse the policy from the query string, build the current
block and the alternatives, pre-filter by policy, rank and respond. -/
def optimizationCore (carriers : List Carrier) (distances ef_map : List (String × ℚ))
    (s : Shipment) (raw : RawPolicy) (today : ℤ) : Except PyExc OptResponse :=
  match optCurrentBlock ef_map carriers s (get_distance distances s.origin s.destination) with
  | .error e => .error e
  | .ok cur =>
      match (list_alternative_carriers carriers s.carrier).mapM
          (mkAltEntry ef_map (parse_policy_from_request raw) s.weight_kg
            (get_distance distances s.origin s.destination) cur.emission_kg_co2e cur.cost_usd today) with
      | .error e => .error e
      | .ok alts =>
          .ok
            { shipment_id := s.shipment_id
              -- `"policy": policy if any(policy.values()) else None`
              policy := if anyPolicyValues (parse_policy_from_request raw) then
                  some (parse_policy_from_request raw) else none
              current := cur
              alternatives := alts
              recommended := selectRecommended
                (chosenCandidates (parse_policy_from_request raw) cur.emission_kg_co2e alts) }

/-! ### Baseline manager (`ensure_baselines`, app.py lines 115-152) -/

/-- Lines 132-134: resolve the assigned carrier and extract
`(mode, base_cost)`.  `if current_carrier` is a dict truthiness test;
`current_carrier['mode']` / `['base_cost_per_km']` are direct indexings
(mode first, as in the source). -/
def shipmentModeBase (carriers : List Carrier) (carrier_name : Option String) :
    Except PyExc (Option String × ℚ) :=
  match carrier_lookup carriers carrier_name with
  | some c =>
      if carrierTruthy c then
        match c.mode with
        | some m =>
            match c.base_cost_per_km with
            | some b => .ok (some m, b)
            | none => .error (.keyError "base_cost_per_km")
        | none => .error (.keyError "mode")
      else .ok (none, 0)
  | none => .ok (none, 0)

/-- The two conditional blocks of `ensure_baselines` for one shipment
(lines 136-149), after the distance has been stored and the carrier
resolved. -/
def baselinePure (ef_map : List (String × ℚ)) (distance_km : ℚ) (mode : Option String)
    (base_cost : ℚ) (s0 : Shipment) : Shipment × Bool :=
  let r1 : Shipment × Bool :=
    if s0.original_carrier = none then
      let em := calc_emission_with_provenance ef_map s0.weight_kg distance_km mode
      ({ s0 with
          original_carrier := some s0.carrier
          original_cost_usd := some (s0.cost_usd.getD (calc_cost distance_km base_cost))
          original_emission_kg_co2e := some em.1
          original_emission_details := some em.2 }, true)
    else (s0, false)
  let s1 := r1.1
  let r2 : Shipment × Bool :=
    if s1.current_cost_usd = none ∨ s1.current_emission_kg_co2e = none then
      let em := calc_emission_with_provenance ef_map s1.weight_kg distance_km mode
      ({ s1 with
          current_cost_usd := some (s1.cost_usd.getD (calc_cost distance_km base_cost))
          current_emission_kg_co2e := some em.1
          current_emission_details := some em.2 }, true)
    else (s1, false)
  (r2.1, r1.2 || r2.2)

/-- One iteration of the `ensure_baselines` loop (lines 127-149): store the
distance, resolve the carrier, then populate missing baseline fields. -/
def processShipmentBaselines (carriers : List Carrier) (distances ef_map : List (String × ℚ))
    (s : Shipment) : Except PyExc (Shipment × Bool) :=
  let distance_km := get_distance distances s.origin s.destination
  let s0 := { s with distance_km := some distance_km }
  match shipmentModeBase carriers s.carrier with
  | .error e => .error e
  | .ok mb => .ok (baselinePure ef_map distance_km mb.1 mb.2 s0)

/-- `ensure_baselines` over the in-memory shipment list, returning the
mutated list and the `changed` flag. -/
def ensure_baselines (carriers : List Carrier) (distances ef_map : List (String × ℚ)) :
    List Shipment → Except PyExc (List Shipment × Bool)
  | [] => .ok ([], false)
  | s :: rest =>
      match processShipmentBaselines carriers distances ef_map s with
      | .error e => .error e
      | .ok r1 =>
          match ensure_baselines carriers distances ef_map rest with
          | .error e => .error e
          | .ok r2 => .ok (r1.1 :: r2.1, r1.2 || r2.2)

/-- `ensure_baselines` at the level of the persisted store: the file is
rewritten (`save_json`) only when `changed` is true; an exception leaves
the file untouched. -/
def ensure_baselines_route (carriers : List Carrier) (distances ef_map : List (String × ℚ))
    (store : List Shipment) : Except PyExc Unit × List Shipment :=
  match ensure_baselines carriers distances ef_map store with
  | .error e => (.error e, store)
  | .ok r => (.ok (), if r.2 then r.1 else store)

/-! ### Approve / reject (app.py lines 632-709) -/

/-- The recompute step shared verbatim by approve (lines 651-656) and
reject (lines 689-694): when the assigned carrier resolves to a truthy
dict, set `current_cost_usd` to `s.get('cost_usd', calc_cost(distance,
rate))` — the declared cost takes precedence, the carrier rate is only the
fallback — and recompute the emission from the carrier's mode.  Indexing
order follows the source: `base_cost_per_km` (line 653) before `mode`
(line 654); an untruthy or unresolved carrier leaves the fields alone. -/
def recomputeCurrent (carriers : List Carrier) (ef_map : List (String × ℚ))
    (distance_km : ℚ) (s : Shipment) : Except PyExc Shipment :=
  match carrier_lookup carriers s.carrier with
  | some c =>
      if carrierTruthy c then
        match c.base_cost_per_km with
        | none => .error (.keyError "base_cost_per_km")
        | some rate =>
            match c.mode with
            | none => .error (.keyError "mode")
            | some m =>
                let em := calc_emission_with_provenance ef_map s.weight_kg distance_km (some m)
                .ok { s with
                  current_cost_usd := some (s.cost_usd.getD (calc_cost distance_km rate))
                  current_emission_kg_co2e := some em.1
                  current_emission_details := some em.2 }
      else .ok s
  | none => .ok s

/-- The mutation `approve` applies to the matching shipment (lines
644-658): store the distance, reassign the carrier when `chosen_carrier`
is truthy, recompute the `current_*` fields, record the APPROVED status
and the comments. -/
def approveUpdateShipment (carriers : List Carrier) (distances ef_map : List (String × ℚ))
    (chosen_carrier : Option String) (comments : String) (s : Shipment) :
    Except PyExc Shipment :=
  match recomputeCurrent carriers ef_map (get_distance distances s.origin s.destination)
      (if pyTruthyStrO chosen_carrier then
        { s with distance_km := some (get_distance distances s.origin s.destination)
                 carrier := chosen_carrier }
      else { s with distance_km := some (get_distance distances s.origin s.destination) }) with
  | .error e => .error e
  | .ok s2 => .ok { s2 with status := some "APPROVED", approver_comments := some comments }

/-- The mutation `reject` applies to the matching shipment (lines 684-697):
identical to `approve` except that the carrier is never reassigned and the
status becomes REJECTED. -/
def rejectUpdateShipment (carriers : List Carrier) (distances ef_map : List (String × ℚ))
    (comments : String) (s : Shipment) : Except PyExc Shipment :=
  match recomputeCurrent carriers ef_map (get_distance distances s.origin s.destination)
      { s with distance_km := some (get_distance distances s.origin s.destination) } with
  | .error e => .error e
  | .ok s1 => .ok { s1 with status := some "REJECTED", approver_comments := some comments }

/-- Update the first list element satisfying `p` (the `for ... break` scan
of the approve/reject routes); the flag reports whether a match was found. -/
def updateFirst (p : α → Bool) (f : α → Except PyExc α) : List α → Except PyExc (List α × Bool)
  | [] => .ok ([], false)
  | x :: xs =>
      if p x then
        match f x with
        | .error e => .error e
        | .ok x2 => .ok (x2 :: xs, true)
      else
        match updateFirst p f xs with
        | .error e => .error e
        | .ok r => .ok (x :: r.1, r.2)

inductive DecisionOutcome where
  | notFound
  | recorded
deriving DecidableEq, Repr

/-- The approve route over the persisted store: scan for the shipment id,
mutate it, and `save_json` only when a shipment was updated; `not found`
and exceptions leave the store untouched. -/
def approveRoute (carriers : List Carrier) (distances ef_map : List (String × ℚ))
    (store : List Shipment) (shipment_id : Option String) (chosen_carrier : Option String)
    (comments : String) : Except PyExc DecisionOutcome × List Shipment :=
  match updateFirst (fun s => some s.shipment_id == shipment_id)
      (approveUpdateShipment carriers distances ef_map chosen_carrier comments) store with
  | .error e => (.error e, store)
  | .ok (st2, true) => (.ok .recorded, st2)
  | .ok (_, false) => (.ok .notFound, store)

/-- The reject route over the persisted store. -/
def rejectRoute (carriers : List Carrier) (distances ef_map : List (String × ℚ))
    (store : List Shipment) (shipment_id : Option String) (comments : String) :
    Except PyExc DecisionOutcome × List Shipment :=
  match updateFirst (fun s => some s.shipment_id == shipment_id)
      (rejectUpdateShipment carriers distances ef_map comments) store with
  | .error e => (.error e, store)
  | .ok (st2, true) => (.ok .recorded, st2)
  | .ok (_, false) => (.ok .notFound, store)

/-! ### Scenario simulation (app.py lines 520-630) -/

/-- The value of a Python `and`-chain that may stop at a falsy number
(`current_cost and ...` yields `current_cost` itself when it is 0). -/
inductive BoolOrNum where
  | b (v : Bool)
  | num (v : ℚ)
deriving DecidableEq, Repr

/-- The request body of the simulate endpoint.  `data.get('policy') or {}`
makes an absent or falsy policy an empty dict, which is the all-`none`
`RawPolicy`. -/
structure SimRequest where
  mode : Option String := none
  carrier : Option String := none
  distance_km : Option ℚ := none
  emission_factor_kgco2e_per_ton_km : Option ℚ := none
  expected_transit_days : Option ℤ := none
  base_cost_per_km : Option ℚ := none
  surcharges_usd : Option ℚ := none
  policy : RawPolicy := {}
deriving DecidableEq, Repr

/-- The `scenario` block of the simulate response. -/
structure ScenarioBlock where
  mode : Option String
  carrier : Option String
  distance_km : ℚ
  emission_kg_co2e : ℚ
  emission_calculation : EmissionDetails
  cost_usd : ℚ
  transit_days : Option ℤ
deriving DecidableEq, Repr

/-- The `comparison_vs_current` block of the simulate response. -/
structure Comparison where
  emission_delta_pct : Option ℚ
  cost_delta_usd : ℚ
deriving DecidableEq, Repr

/-- The `policy_alignment` block of the simulate response (lines 596-602).
Unlike the optimization route, `within_budget_increase_pct` is built from a
bare `and`-chain and can carry the falsy number `current_cost`. -/
structure SimPolicyAlignment where
  emission_reduction_pct_vs_current : Option ℚ
  meets_min_emission_reduction : Bool
  within_budget_cap : Option Bool
  within_budget_increase_pct : Option BoolOrNum
  sla_met : Option Bool
deriving DecidableEq, Repr

/-- The simulate response (lines 604-630). -/
structure SimResponse where
  shipment_id : String
  scenario : ScenarioBlock
  current : CurrentBlock
  comparison_vs_current : Comparison
  policy_alignment : Option SimPolicyAlignment
  policy : Option Policy
deriving DecidableEq, Repr

/-- The simulate endpoint after the shipment has been found (lines
549-630).  All the layering of scenario overrides (`override or derived or
fallback`) follows Python truthiness. -/
def simulateCore (carriers : List Carrier) (distances ef_map : List (String × ℚ))
    (s : Shipment) (req : SimRequest) (today : ℤ) : Except PyExc SimResponse := do
  let pol := parse_policy_from_request req.policy
  let base_distance := get_distance distances s.origin s.destination
  -- current baseline (lines 556-560)
  let current_carrier := carrier_lookup carriers s.carrier
  let current_mode : Option String ←
    match current_carrier with
    | some c =>
        if carrierTruthy c then
          match pyIndexS c.mode "mode" with
          | .error e => .error e
          | .ok m => pure (some m)
        else pure none
    | none => pure none
  let current_rate : ℚ ←
    match current_carrier with
    | some c => if carrierTruthy c then pyIndexQ c.base_cost_per_km "base_cost_per_km" else pure 0
    | none => pure 0
  let current_cost := s.cost_usd.getD (calc_cost base_distance current_rate)
  let current_transit := compute_transit_days_for_carrier current_carrier
  let current_em := calc_emission_with_provenance ef_map s.weight_kg base_distance current_mode
  -- scenario overrides (lines 563-570)
  let scenario_carrier : Option Carrier :=
    if pyTruthyStrO req.carrier then carrier_lookup carriers req.carrier else none
  let scenario_mode : Option String :=
    if pyTruthyStrO req.mode then req.mode
    else
      match scenario_carrier with
      | some c => if carrierTruthy c then c.mode else current_mode
      | none => current_mode
  let scenario_distance := req.distance_km.getD base_distance
  let scenario_factor := req.emission_factor_kgco2e_per_ton_km
  let scenario_transit : Option ℤ :=
    if pyTruthyIntO req.expected_transit_days then req.expected_transit_days
    else
      match scenario_carrier with
      | some c =>
          if carrierTruthy c then compute_transit_days_for_carrier (some c)
          else some (default_transit_days_for_mode scenario_mode)
      | none => some (default_transit_days_for_mode scenario_mode)
  let rate_chain : Option ℚ :=
    if pyTruthyQO req.base_cost_per_km then req.base_cost_per_km
    else
      match scenario_carrier with
      | some c =>
          if carrierTruthy c then c.base_cost_per_km
          else
            match current_carrier with
            | some c2 => if carrierTruthy c2 then c2.base_cost_per_km else some 0
            | none => some 0
      | none =>
          match current_carrier with
          | some c2 => if carrierTruthy c2 then c2.base_cost_per_km else some 0
          | none => some 0
  let surcharges_usd := req.surcharges_usd.getD 0
  let scenario_em :=
    calc_emission_with_provenance ef_map s.weight_kg scenario_distance scenario_mode scenario_factor
  -- `calc_cost` applies `float(...)` to the rate: `None` raises TypeError
  let base_cost_per_km : ℚ ←
    match rate_chain with
    | some r => pure r
    | none => .error .typeError
  let scenario_cost := calc_cost scenario_distance base_cost_per_km surcharges_usd
  -- comparison (lines 576-577)
  let emission_delta_pct : Option ℚ :=
    if current_em.1 ≠ 0 then
      some (pyRound ((scenario_em.1 - current_em.1) / current_em.1 * 100) 2)
    else none
  let cost_delta_usd := pyRound (scenario_cost - current_cost) 2
  -- policy alignment (lines 580-602); `if policy:` is always true
  let red_pct : Option ℚ :=
    if current_em.1 ≠ 0 then
      some (pyRound ((current_em.1 - scenario_em.1) / current_em.1 * 100) 2)
    else none
  let sla_ok : Option Bool :=
    if pyTruthyStrO pol.sla_due_date && scenario_transit.isSome then
      tryOrNone (slaTryBlock today (pol.sla_due_date.getD "") (scenario_transit.getD 0))
    else none
  let budget_cap_ok : Bool :=
    match pol.budget_cap_usd with
    | some cap => scenario_cost ≤ cap
    | none => false
  let budget_increase_ok : BoolOrNum :=
    if current_cost = 0 then .num current_cost
    else
      -- `policy.get('budget_increase_max_pct') is not None` is always true
      .b (scenario_cost ≤ current_cost * (1 + pol.budget_increase_max_pct / 100))
  let policy_alignment : Option SimPolicyAlignment :=
    some
      { emission_reduction_pct_vs_current := red_pct
        meets_min_emission_reduction :=
          match red_pct with
          | some r => r ≥ pol.emission_reduction_min_pct
          | none => false
        within_budget_cap := if pol.budget_cap_usd.isSome then some budget_cap_ok else none
        -- `budget_increase_ok if policy.get('budget_increase_max_pct') is not None
        -- else None` — the parsed policy always has that field, hence `some`
        within_budget_increase_pct := some budget_increase_ok
        sla_met := sla_ok }
  pure
    { shipment_id := s.shipment_id
      scenario :=
        { mode := scenario_mode
          carrier := if pyTruthyStrO req.carrier then req.carrier else s.carrier
          distance_km := scenario_distance
          emission_kg_co2e := scenario_em.1
          emission_calculation := scenario_em.2
          cost_usd := scenario_cost
          transit_days := scenario_transit }
      current :=
        { carrier := s.carrier
          mode := current_mode
          distance_km := base_distance
          emission_kg_co2e := current_em.1
          emission_calculation := current_em.2
          cost_usd := current_cost
          transit_days := current_transit }
      comparison_vs_current :=
        { emission_delta_pct := emission_delta_pct, cost_delta_usd := cost_delta_usd }
      policy_alignment := policy_alignment
      policy := if anyPolicyValues pol then some pol else none }

/-- `next((s for s in shipments if s['shipment_id'] == shipment_id), None)`. -/
def findShipment (store : List Shipment) (shipment_id : String) : Option Shipment :=
  store.find? (fun s => s.shipment_id == shipment_id)

inductive SimOutcome where
  | notFound
  | success (resp : SimResponse)
deriving DecidableEq, Repr

/-- The simulate route over the persisted store.  The handler contains no
`save_json` call and never assigns into the shipment record, so the store
component of the result is the input store in every branch (404, success,
or exception). -/
def simulateRoute (carriers : List Carrier) (distances ef_map : List (String × ℚ))
    (store : List Shipment) (shipment_id : String) (req : SimRequest) (today : ℤ) :
    Except PyExc SimOutcome × List Shipment :=
  match findShipment store shipment_id with
  | none => (.ok .notFound, store)
  | some s =>
      match simulateCore carriers distances ef_map s req today with
      | .error e => (.error e, store)
      | .ok resp => (.ok (.success resp), store)

/-! ### Concrete configurations used by witnesses and counterexamples -/

/-- Carrier catalog of the running example: an assigned air carrier and two
alternatives (a policy-compliant rail carrier and a low-emission but
expensive sea carrier). -/
def exCarriers : List Carrier :=
  [{ name := some "CurAir", mode := some "air", base_cost_per_km := some (3/10),
     avg_transit_days := some 2 },
   { name := some "GoodRail", mode := some "rail", base_cost_per_km := some (32/100),
     avg_transit_days := some 4 },
   { name := some "LowSea", mode := some "sea", base_cost_per_km := some (1/2),
     avg_transit_days := some 14 }]

def exEf : List (String × ℚ) := [("air", 1/2), ("rail", 1/20), ("sea", 1/50)]

def exDistances : List (String × ℚ) := [("A-B", 1000)]

def exShip : Shipment :=
  { shipment_id := "S1", origin := "A", destination := "B", weight_kg := 1000,
    carrier := some "CurAir" }

/-- The optimization response of the running example under a request with
no policy fields. -/
def exResp : OptResponse :=
  match optimizationCore exCarriers exDistances exEf exShip {} 739000 with
  | .ok r => r
  | .error _ =>
      { shipment_id := "", policy := none,
        current :=
          { carrier := none, mode := none, distance_km := 0, emission_kg_co2e := 0,
            emission_calculation :=
              { method := "", weight_tons := 0, distance_km := 0, mode := none,
                emission_factor_kgco2e_per_ton_km := 0, factor_source := "" },
            cost_usd := 0, transit_days := none },
        alternatives := [], recommended := none }

/-- A shipment assigned to the rail carrier: its alternatives either miss
the emission-reduction minimum or exceed every budget bound, so the policy
filter of the optimization route comes out empty. -/
def exShip5 : Shipment :=
  { shipment_id := "S2", origin := "A", destination := "B", weight_kg := 1000,
    carrier := some "GoodRail" }

/-- A policy request carrying only a budget cap. -/
def exRaw5 : RawPolicy := { budget_cap_usd := some 450 }

/-- The optimization response of `exShip5` under `exRaw5`. -/
def exResp5 : OptResponse :=
  match optimizationCore exCarriers exDistances exEf exShip5 exRaw5 739000 with
  | .ok r => r
  | .error _ => exResp

/-- A carrier with a mode outside the default-transit table and no stated
`avg_transit_days`. -/
def exTruck : Carrier := { name := some "TruckCo", mode := some "truck" }

/-- Catalog for the approve/reject examples: the assigned road carrier and
an air carrier with a different per-km rate. -/
def exDecCarriers : List Carrier :=
  [{ name := some "SlowRoad", mode := some "road", base_cost_per_km := some (1/10),
     avg_transit_days := some 5 },
   { name := some "FastAir", mode := some "air", base_cost_per_km := some (1/2),
     avg_transit_days := some 2 }]

def exDecDistances : List (String × ℚ) := [("A-B", 500)]

def exDecEf : List (String × ℚ) := [("road", 1/10), ("air", 1/2)]

/-- A shipment with a declared `cost_usd` of 100 USD. -/
def exDecShip : Shipment :=
  { shipment_id := "S3", origin := "A", destination := "B", weight_kg := 1000,
    carrier := some "SlowRoad", cost_usd := some 100 }

/-- `exDecShip` after approving the air carrier. -/
def exShipApproved : Shipment :=
  match approveUpdateShipment exDecCarriers exDecDistances exDecEf (some "FastAir") "ok"
      exDecShip with
  | .ok t => t
  | .error _ => exDecShip

/-- `exDecShip` after a reject call. -/
def exShipRejected : Shipment :=
  match rejectUpdateShipment exDecCarriers exDecDistances exDecEf "ok" exDecShip with
  | .ok t => t
  | .error _ => exDecShip

/-- The shipment list `[exDecShip]` after a first `ensure_baselines` run. -/
def exBaselinedOut : List Shipment :=
  match ensure_baselines exDecCarriers exDecDistances exDecEf [exDecShip] with
  | .ok r => r.1
  | .error _ => []

/-! ### Ordering helpers for the recommendation rule -/

/-- Non-strict lexicographic order on `(emission_kg_co2e, estimated_cost_usd)`. -/
def altLePr (x y : AltEntry) : Prop :=
  x.emission_kg_co2e < y.emission_kg_co2e ∨
    (x.emission_kg_co2e = y.emission_kg_co2e ∧ x.estimated_cost_usd ≤ y.estimated_cost_usd)

lemma altLePr_refl (x : AltEntry) : altLePr x x := Or.inr ⟨rfl, le_refl _⟩

lemma altLePr_trans {x y z : AltEntry} (h1 : altLePr x y) (h2 : altLePr y z) : altLePr x z := by
  rcases h1 with h1 | ⟨h1e, h1c⟩ <;> rcases h2 with h2 | ⟨h2e, h2c⟩
  · exact Or.inl (lt_trans h1 h2)
  · exact Or.inl (h2e ▸ h1)
  · exact Or.inl (h1e ▸ h2)
  · exact Or.inr ⟨h1e.trans h2e, le_trans h1c h2c⟩

lemma altLtB_true_le {x y : AltEntry} (h : altLtB x y = true) : altLePr x y := by
  unfold altLtB at h
  simp only [Bool.or_eq_true, Bool.and_eq_true, decide_eq_true_eq, beq_iff_eq] at h
  rcases h with h | ⟨he, hc⟩
  · exact Or.inl h
  · exact Or.inr ⟨he, le_of_lt hc⟩

lemma altLtB_false_le {x y : AltEntry} (h : altLtB x y = false) : altLePr y x := by
  by_cases h1 : x.emission_kg_co2e < y.emission_kg_co2e
  · exfalso; unfold altLtB at h; simp [h1] at h
  · push_neg at h1
    rcases lt_or_eq_of_le h1 with h2 | h2
    · exact Or.inl h2
    · by_cases h3 : y.estimated_cost_usd ≤ x.estimated_cost_usd
      · exact Or.inr ⟨h2, h3⟩
      · exfalso; push_neg at h3; unfold altLtB at h; simp [h2.symm, h3] at h

/-- The fold inside `selectRecommended` returns the seed or a list element. -/
lemma foldl_altMin_mem (l : List AltEntry) (b : AltEntry) :
    l.foldl (fun best c => if altLtB c best then c else best) b = b ∨
      l.foldl (fun best c => if altLtB c best then c else best) b ∈ l := by
  induction l generalizing b with
  | nil => exact Or.inl rfl
  | cons x xs ih =>
      simp only [List.foldl_cons]
      by_cases h : altLtB x b
      · simp only [h, if_true]
        rcases ih x with h2 | h2
        · rw [h2]; exact Or.inr (List.mem_cons_self x xs)
        · exact Or.inr (List.mem_cons_of_mem x h2)
      · simp only [h, if_false]
        rcases ih b with h2 | h2
        · exact Or.inl h2
        · exact Or.inr (List.mem_cons_of_mem x h2)

/-- The fold inside `selectRecommended` is lexicographically minimal among
the seed and the list elements. -/
lemma foldl_altMin_le (l : List AltEntry) (b : AltEntry) :
    altLePr (l.foldl (fun best c => if altLtB c best then c else best) b) b ∧
      ∀ x ∈ l, altLePr (l.foldl (fun best c => if altLtB c best then c else best) b) x := by
  induction l generalizing b with
  | nil => exact ⟨altLePr_refl b, by simp⟩
  | cons y ys ih =>
      simp only [List.foldl_cons]
      by_cases h : altLtB y b
      · simp only [h, if_true]
        refine ⟨altLePr_trans (ih y).1 (altLtB_true_le h), ?_⟩
        intro x hx
        rcases List.mem_cons.mp hx with rfl | hx
        · exact (ih x).1
        · exact (ih y).2 x hx
      · simp only [h, if_false]
        refine ⟨(ih b).1, ?_⟩
        intro x hx
        rcases List.mem_cons.mp hx with rfl | hx
        · exact altLePr_trans (ih b).1 (altLtB_false_le (Bool.of_not_eq_true h ▸ rfl))
        · exact (ih b).2 x hx

lemma selectRecommended_mem {l : List AltEntry} {r : AltEntry}
    (h : selectRecommended l = some r) : r ∈ l := by
  cases l with
  | nil => simp [selectRecommended] at h
  | cons x xs =>
      simp only [selectRecommended, Option.some.injEq] at h
      subst h
      rcases foldl_altMin_mem xs x with h2 | h2
      · rw [h2]; exact List.mem_cons_self x xs
      · exact List.mem_cons_of_mem x h2

lemma selectRecommended_min {l : List AltEntry} {r : AltEntry}
    (h : selectRecommended l = some r) : ∀ x ∈ l, altLePr r x := by
  cases l with
  | nil => simp [selectRecommended] at h
  | cons y ys =>
      simp only [selectRecommended, Option.some.injEq] at h
      intro x hx
      rcases List.mem_cons.mp hx with rfl | hx
      · exact h ▸ (foldl_altMin_le ys x).1
      · exact h ▸ (foldl_altMin_le ys y).2 x hx

lemma selectRecommended_ne_none {l : List AltEntry} (h : l ≠ []) :
    selectRecommended l ≠ none := by
  cases l with
  | nil => exact absurd rfl h
  | cons x xs => simp [selectRecommended]

/-- Inversion of `optimizationCore`: a successful response is assembled
from a successful current block and successfully built alternatives. -/
lemma optimizationCore_ok_inv {carriers : List Carrier} {distances ef_map : List (String × ℚ)}
    {s : Shipment} {raw : RawPolicy} {today : ℤ} {resp : OptResponse}
    (h : optimizationCore carriers distances ef_map s raw today = .ok resp) :
    ∃ cur alts,
      optCurrentBlock ef_map carriers s (get_distance distances s.origin s.destination) = .ok cur ∧
      (list_alternative_carriers carriers s.carrier).mapM
        (mkAltEntry ef_map (parse_policy_from_request raw) s.weight_kg
          (get_distance distances s.origin s.destination) cur.emission_kg_co2e cur.cost_usd today)
        = .ok alts ∧
      resp = { shipment_id := s.shipment_id
               policy := if anyPolicyValues (parse_policy_from_request raw) then
                   some (parse_policy_from_request raw) else none
               current := cur
               alternatives := alts
               recommended := selectRecommended
                 (chosenCandidates (parse_policy_from_request raw) cur.emission_kg_co2e alts) } := by
  unfold optimizationCore at h
  split at h
  · exact absurd h (by simp)
  · rename_i cur hcb
    split at h
    · exact absurd h (by simp)
    · rename_i alts hm
      exact ⟨cur, alts, hcb, hm, by injection h with h2; exact h2.symm⟩

/-- C6: within the chosen candidate set the recommended option is the
first lexicographic minimum of `(emission_kg_co2e, estimated_cost_usd)`:
lowest emission wins, ties broken by lowest cost; with no alternatives at
all, `recommended` is `None`. -/
theorem optimization_recommended_is_minimum
    (carriers : List Carrier) (distances ef_map : List (String × ℚ)) (s : Shipment)
    (raw : RawPolicy) (today : ℤ) (resp : OptResponse)
    (h : optimizationCore carriers distances ef_map s raw today = .ok resp) :
    (resp.alternatives = [] → resp.recommended = none) ∧
    ∀ r, resp.recommended = some r →
      r ∈ chosenCandidates (parse_policy_from_request raw) resp.current.emission_kg_co2e
            resp.alternatives ∧
      ∀ x ∈ chosenCandidates (parse_policy_from_request raw) resp.current.emission_kg_co2e
            resp.alternatives,
        r.emission_kg_co2e < x.emission_kg_co2e ∨
          (r.emission_kg_co2e = x.emission_kg_co2e ∧ r.estimated_cost_usd ≤ x.estimated_cost_usd) := by
  obtain ⟨cur, alts, hcb, hm, rfl⟩ := optimizationCore_ok_inv h
  constructor
  · intro halts
    simp only at halts
    subst halts
    simp [chosenCandidates, selectRecommended]
  · intro r hr
    simp only at hr ⊢
    exact ⟨selectRecommended_mem hr, selectRecommended_min hr⟩

/-- C5: when a policy is in force but no alternative passes the policy
filter, the recommendation falls back to the full alternative list and is
still a (non-`None`) minimum of that full list. -/
theorem optimization_policy_filter_fallback
    (carriers : List Carrier) (distances ef_map : List (String × ℚ)) (s : Shipment)
    (raw : RawPolicy) (today : ℤ) (resp : OptResponse)
    (h : optimizationCore carriers distances ef_map s raw today = .ok resp)
    (halts : resp.alternatives ≠ [])
    (hfail : resp.alternatives.filter (meets_policy (parse_policy_from_request raw)) = []) :
    resp.recommended = selectRecommended resp.alternatives ∧
    resp.recommended ≠ none ∧
    ∀ r, resp.recommended = some r → r ∈ resp.alternatives ∧
      ∀ x ∈ resp.alternatives,
        r.emission_kg_co2e < x.emission_kg_co2e ∨
          (r.emission_kg_co2e = x.emission_kg_co2e ∧ r.estimated_cost_usd ≤ x.estimated_cost_usd) := by
  obtain ⟨cur, alts, hcb, hm, rfl⟩ := optimizationCore_ok_inv h
  simp only at halts hfail ⊢
  have hchosen : chosenCandidates (parse_policy_from_request raw) cur.emission_kg_co2e alts = alts := by
    unfold chosenCandidates
    by_cases hce : cur.emission_kg_co2e ≠ 0
    · simp [hce, hfail]
    · simp [hce]
  rw [hchosen]
  exact ⟨rfl, selectRecommended_ne_none halts,
    fun r hr => ⟨selectRecommended_mem hr, selectRecommended_min hr⟩⟩

/-- Witness for C6: the running example evaluated end to end. -/
theorem optimization_recommended_is_minimum_witness :
    optimizationCore exCarriers exDistances exEf exShip {} 739000 = .ok exResp ∧
    ((exResp.alternatives = [] → exResp.recommended = none) ∧
     ∀ r, exResp.recommended = some r →
       r ∈ chosenCandidates (parse_policy_from_request {}) exResp.current.emission_kg_co2e
             exResp.alternatives ∧
       ∀ x ∈ chosenCandidates (parse_policy_from_request {}) exResp.current.emission_kg_co2e
             exResp.alternatives,
         r.emission_kg_co2e < x.emission_kg_co2e ∨
           (r.emission_kg_co2e = x.emission_kg_co2e ∧
             r.estimated_cost_usd ≤ x.estimated_cost_usd)) :=
  ⟨by with_unfolding_all rfl,
   optimization_recommended_is_minimum exCarriers exDistances exEf exShip {} 739000 exResp
     (by with_unfolding_all rfl)⟩

/-- Witness for C5: under a 450 USD budget cap no alternative of `exShip5`
passes the filter, yet the recommendation is the minimum of the full list. -/
theorem optimization_policy_filter_fallback_witness :
    (optimizationCore exCarriers exDistances exEf exShip5 exRaw5 739000 = .ok exResp5 ∧
     exResp5.alternatives ≠ [] ∧
     exResp5.alternatives.filter (meets_policy (parse_policy_from_request exRaw5)) = []) ∧
    (exResp5.recommended = selectRecommended exResp5.alternatives ∧
     exResp5.recommended ≠ none ∧
     ∀ r, exResp5.recommended = some r → r ∈ exResp5.alternatives ∧
       ∀ x ∈ exResp5.alternatives,
         r.emission_kg_co2e < x.emission_kg_co2e ∨
           (r.emission_kg_co2e = x.emission_kg_co2e ∧
             r.estimated_cost_usd ≤ x.estimated_cost_usd)) :=
  ⟨⟨by with_unfolding_all rfl, by with_unfolding_all decide, by with_unfolding_all rfl⟩,
   optimization_policy_filter_fallback exCarriers exDistances exEf exShip5 exRaw5 739000 exResp5
     (by with_unfolding_all rfl) (by with_unfolding_all decide) (by with_unfolding_all rfl)⟩

/-- C1: a request that supplies no policy fields does not behave as "no
policy".  At the running example the response's policy block is non-null
(the parsed policy always contains `sla_priority="normal"` and the numeric
defaults 30/10, so `any(policy.values())` is true), and the defaults are
applied as a filter: the recommendation is the rail alternative surviving
the default budget-increase bound, not the minimum of the full alternative
set (the sea alternative). -/
theorem optimization_no_policy_fields_still_filters
    : optimizationCore exCarriers exDistances exEf exShip {} 739000 = .ok exResp ∧
      exResp.policy ≠ none ∧
      exResp.recommended.map (fun a => a.carrier) = some "GoodRail" ∧
      (selectRecommended exResp.alternatives).map (fun a => a.carrier) = some "LowSea" ∧
      exResp.recommended ≠ selectRecommended exResp.alternatives := by
  refine ⟨by with_unfolding_all rfl, ?_, by with_unfolding_all rfl, by with_unfolding_all rfl, ?_⟩
  · with_unfolding_all decide
  · with_unfolding_all decide

/-- C2: the SLA predicate can never be evaluated.  `timedelta` is not
imported (app.py line 4), so `sla_met` raises `NameError` on a present
transit and a valid due date instead of comparing the arrival date, and the
inline SLA evaluation of the optimization route swallows that exception and
yields `None` for the same inputs. -/
theorem sla_met_timedelta_name_error
    : sla_met 739000 (some 3) (some "2025-12-22") = .error (.nameError "timedelta") ∧
      (strptimeYMD "2025-12-22").isSome = true ∧
      (mkPolicyEval (parse_policy_from_request { sla_due_date := some "2025-12-22" })
         500 300 739000 50 320 (some 3)).sla_met = none := by
  refine ⟨by with_unfolding_all rfl, by with_unfolding_all rfl, by with_unfolding_all rfl⟩

/-- C9: the simulate route never mutates the persisted shipment store: the
store component of its result equals the input store for every shipment id,
every combination of scenario overrides and policy, and also on the
not-found and exception paths. -/
theorem simulate_route_non_mutating
    (carriers : List Carrier) (distances ef_map : List (String × ℚ))
    (store : List Shipment) (shipment_id : String) (req : SimRequest) (today : ℤ) :
    (simulateRoute carriers distances ef_map store shipment_id req today).2 = store := by
  unfold simulateRoute
  cases findShipment store shipment_id with
  | none => rfl
  | some s => cases h : simulateCore carriers distances ef_map s req today <;> simp [h]

/-- C7: with a factor override, the emission is `round(w/1000 * d * f, 2)`
and the provenance record carries the override factor with source tag
"override", the weight in tons rounded to 6 decimals, the distance and the
mode. -/
theorem emission_factor_override_formula
    (ef_map : List (String × ℚ)) (w d f : ℚ) (mode : Option String)
    (_hw : 0 < w) (_hd : 0 ≤ d) (_hf : 0 ≤ f) :
    calc_emission_with_provenance ef_map w d mode (some f) =
      (pyRound (w / 1000 * d * f) 2,
       { method := "weight_tons * distance_km * emission_factor_kgco2e_per_ton_km"
         weight_tons := pyRound (w / 1000) 6
         distance_km := d
         mode := mode
         emission_factor_kgco2e_per_ton_km := f
         factor_source := "override" }) := rfl

/-- Witness for C7 at `w = 1000`, `d = 100`, `f = 1/2`. -/
theorem emission_factor_override_formula_witness :
    (0 < (1000 : ℚ) ∧ (0 : ℚ) ≤ 100 ∧ (0 : ℚ) ≤ 1/2) ∧
    calc_emission_with_provenance [] 1000 100 (some "air") (some (1/2)) =
      (pyRound ((1000 : ℚ) / 1000 * 100 * (1/2)) 2,
       { method := "weight_tons * distance_km * emission_factor_kgco2e_per_ton_km"
         weight_tons := pyRound ((1000 : ℚ) / 1000) 6
         distance_km := 100
         mode := some "air"
         emission_factor_kgco2e_per_ton_km := 1/2
         factor_source := "override" }) :=
  ⟨⟨by norm_num, by norm_num, by norm_num⟩,
   emission_factor_override_formula [] 1000 100 (1/2) (some "air")
     (by norm_num) (by norm_num) (by norm_num)⟩

/-- C8: missing reference data resolves to documented fallbacks, never an
error: an absent origin-destination pair yields exactly 1000 km, an absent
or unknown mode yields factor 0.1 with the default source tag, and
`emission(1000, 100, mode=<unknown>)` is 10.0. -/
theorem missing_reference_data_defaults
    (distances ef_map : List (String × ℚ)) (origin destination mode : String)
    (hdist : distances.find? (fun p => p.1 == origin ++ "-" ++ destination) = none)
    (hmode : ef_map.find? (fun p => p.1 == mode) = none) :
    get_distance distances origin destination = 1000 ∧
    get_emission_factor ef_map (some mode) = (1/10, "default:0.1 (missing or unknown mode)") ∧
    get_emission_factor ef_map none = (1/10, "default:0.1 (missing or unknown mode)") ∧
    calc_emission ef_map 1000 100 (some mode) none = 10 := by
  have h1 : get_distance distances origin destination = 1000 := by
    unfold get_distance; rw [hdist]
  have h2 : get_emission_factor ef_map (some mode) =
      (1/10, "default:0.1 (missing or unknown mode)") := by
    unfold get_emission_factor
    simp only [hmode]
    split <;> rfl
  refine ⟨h1, h2, rfl, ?_⟩
  unfold calc_emission calc_emission_with_provenance
  simp only [h2]
  with_unfolding_all decide

/-- Witness for C8 with an empty distance table and a one-mode factor
table that does not know "unknown-mode". -/
theorem missing_reference_data_defaults_witness :
    (([] : List (String × ℚ)).find? (fun p => p.1 == "X" ++ "-" ++ "Y") = none ∧
     ([("air", (1/2 : ℚ))].find? (fun p => p.1 == "unknown-mode")) = none) ∧
    (get_distance [] "X" "Y" = 1000 ∧
     get_emission_factor [("air", 1/2)] (some "unknown-mode") =
       (1/10, "default:0.1 (missing or unknown mode)") ∧
     get_emission_factor [("air", 1/2)] none =
       (1/10, "default:0.1 (missing or unknown mode)") ∧
     calc_emission [("air", 1/2)] 1000 100 (some "unknown-mode") none = 10) :=
  ⟨⟨by with_unfolding_all rfl, by with_unfolding_all rfl⟩,
   missing_reference_data_defaults [] [("air", 1/2)] "X" "Y" "unknown-mode"
     (by with_unfolding_all rfl) (by with_unfolding_all rfl)⟩

/-- C10 counterexample: an empty but non-`None` carrier dict has no
`avg_transit_days` and no mode, yet `compute_transit_days_for_carrier`
returns `None` rather than the default 5, because `if not carrier_obj:` is
a truthiness test that an empty dict also fails. -/
theorem compute_transit_days_empty_carrier_counterexample :
    compute_transit_days_for_carrier
        (some { name := none, mode := none, base_cost_per_km := none, avg_transit_days := none })
      = none ∧
    (none : Option ℤ) ≠ some 5 := ⟨rfl, by decide⟩

/-- C10 (amended): for every *non-empty* carrier dict with no
`avg_transit_days` whose mode is absent or, lower-cased, none of air, road,
rail, sea, the transit resolution returns the default 5; `None` is returned
when the carrier is `None` (or, per the counterexample, an empty dict). -/
theorem compute_transit_days_default_amended (c : Carrier)
    (htruthy : carrierTruthy c = true)
    (havg : c.avg_transit_days = none)
    (hmode : ∀ m, c.mode = some m →
      lowerStr m ≠ "air".data ∧ lowerStr m ≠ "road".data ∧
      lowerStr m ≠ "rail".data ∧ lowerStr m ≠ "sea".data) :
    compute_transit_days_for_carrier (some c) = some 5 ∧
    compute_transit_days_for_carrier none = none := by
  refine ⟨?_, rfl⟩
  unfold compute_transit_days_for_carrier
  simp only [htruthy, if_true, havg, Option.getD_none, Option.some.injEq]
  cases hm : c.mode with
  | none => with_unfolding_all decide
  | some m =>
      obtain ⟨h1, h2, h3, h4⟩ := hmode m hm
      simp only [default_transit_days_for_mode, Option.getD_some]
      rw [if_neg h1, if_neg h2, if_neg h3, if_neg h4]

/-- Witness for the amended C10 at a carrier with mode "truck". -/
theorem compute_transit_days_default_amended_witness :
    (carrierTruthy exTruck = true ∧ exTruck.avg_transit_days = none) ∧
    (compute_transit_days_for_carrier (some exTruck) = some 5 ∧
     compute_transit_days_for_carrier none = none) :=
  ⟨⟨by with_unfolding_all rfl, rfl⟩,
   compute_transit_days_default_amended exTruck (by with_unfolding_all rfl) rfl
     (by
       intro m hm
       injection hm with hm
       subst hm
       exact ⟨by with_unfolding_all decide, by with_unfolding_all decide,
         by with_unfolding_all decide, by with_unfolding_all decide⟩)⟩

/-- What a successful `recomputeCurrent` guarantees: identity fields are
untouched, and whenever the (unchanged) assigned carrier resolves to a
truthy record, the `current_*` fields reflect that carrier's mode and —
only as the fallback behind a declared `cost_usd` — its rate. -/
lemma recomputeCurrent_fields {carriers : List Carrier} {ef_map : List (String × ℚ)}
    {d : ℚ} {s t : Shipment} (h : recomputeCurrent carriers ef_map d s = .ok t) :
    t.carrier = s.carrier ∧ t.weight_kg = s.weight_kg ∧ t.cost_usd = s.cost_usd ∧
    ∀ c, carrier_lookup carriers t.carrier = some c → carrierTruthy c = true →
      ∃ m rate, c.mode = some m ∧ c.base_cost_per_km = some rate ∧
        t.current_emission_kg_co2e = some (calc_emission ef_map s.weight_kg d (some m)) ∧
        t.current_cost_usd = some (s.cost_usd.getD (calc_cost d rate)) := by
  unfold recomputeCurrent at h
  split at h
  · rename_i c hc
    split at h
    · rename_i htr
      split at h
      · exact absurd h (by simp)
      · rename_i rate hrate
        split at h
        · exact absurd h (by simp)
        · rename_i m hm
          injection h with h
          subst h
          refine ⟨rfl, rfl, rfl, ?_⟩
          intro c2 hc2 _
          have hc3 : carrier_lookup carriers s.carrier = some c2 := hc2
          rw [hc] at hc3
          injection hc3 with hc3
          subst hc3
          exact ⟨m, rate, hm, hrate, rfl, rfl⟩
    · rename_i htr
      injection h with h
      subst h
      refine ⟨rfl, rfl, rfl, ?_⟩
      intro c2 hc2 htr2
      rw [hc] at hc2
      injection hc2 with hc2
      subst hc2
      exact absurd htr2 htr
  · rename_i hc
    injection h with h
    subst h
    refine ⟨rfl, rfl, rfl, ?_⟩
    intro c2 hc2 _
    rw [hc] at hc2
    exact absurd hc2 (by simp)

/-- C3 counterexample: approving a different carrier on a shipment with a
declared `cost_usd` leaves `current_cost_usd` at the declared 100 USD even
though the newly assigned carrier's rate prices the 500 km trip at 250
USD, so the persisted cost does not equal the cost computed from the
current carrier's per-km rate. -/
theorem approve_declared_cost_shadows_recompute :
    (approveUpdateShipment exDecCarriers exDecDistances exDecEf (some "FastAir") "ok"
        exDecShip).map (fun u => (u.carrier, u.current_cost_usd)) =
      .ok (some "FastAir", some 100) ∧
    calc_cost 500 (1/2) = 250 ∧
    (100 : ℚ) ≠ 250 := by
  refine ⟨by with_unfolding_all rfl, by with_unfolding_all decide, by norm_num⟩

/-- C3 (amended): after approve (with a truthy chosen carrier applied) and
after reject, whenever the shipment's assigned carrier resolves in the
catalog to a truthy record, the persisted `current_emission_kg_co2e`
equals the emission computed from that carrier's mode with the shipment's
weight and distance, and `current_cost_usd` equals the declared `cost_usd`
when one is present, else the cost computed from that carrier's per-km
rate. -/
theorem approve_reject_current_fields_amended
    (carriers : List Carrier) (distances ef_map : List (String × ℚ))
    (chosen : Option String) (comments : String) (s sA sR : Shipment)
    (hA : approveUpdateShipment carriers distances ef_map chosen comments s = .ok sA)
    (hR : rejectUpdateShipment carriers distances ef_map comments s = .ok sR) :
    (∀ c, carrier_lookup carriers sA.carrier = some c → carrierTruthy c = true →
      ∃ m rate, c.mode = some m ∧ c.base_cost_per_km = some rate ∧
        sA.current_emission_kg_co2e =
          some (calc_emission ef_map s.weight_kg
            (get_distance distances s.origin s.destination) (some m)) ∧
        sA.current_cost_usd =
          some (s.cost_usd.getD
            (calc_cost (get_distance distances s.origin s.destination) rate))) ∧
    (∀ c, carrier_lookup carriers sR.carrier = some c → carrierTruthy c = true →
      ∃ m rate, c.mode = some m ∧ c.base_cost_per_km = some rate ∧
        sR.current_emission_kg_co2e =
          some (calc_emission ef_map s.weight_kg
            (get_distance distances s.origin s.destination) (some m)) ∧
        sR.current_cost_usd =
          some (s.cost_usd.getD
            (calc_cost (get_distance distances s.origin s.destination) rate))) := by
  constructor
  · unfold approveUpdateShipment at hA
    split at hA
    · exact absurd hA (by simp)
    · rename_i s2 hrc
      injection hA with hA
      subst hA
      obtain ⟨hcar, hw, hcu, hmain⟩ := recomputeCurrent_fields hrc
      intro c hc htr
      have hw2 : (if pyTruthyStrO chosen then
          { s with distance_km := some (get_distance distances s.origin s.destination)
                   carrier := chosen }
        else { s with
          distance_km := some (get_distance distances s.origin s.destination) }).weight_kg
          = s.weight_kg := by
        split <;> rfl
      have hcu2 : (if pyTruthyStrO chosen then
          { s with distance_km := some (get_distance distances s.origin s.destination)
                   carrier := chosen }
        else { s with
          distance_km := some (get_distance distances s.origin s.destination) }).cost_usd
          = s.cost_usd := by
        split <;> rfl
      have hc2 : carrier_lookup carriers s2.carrier = some c := hc
      obtain ⟨m, rate, hm, hrate, hem, hcost⟩ := hmain c hc2 htr
      rw [hw2] at hem
      rw [hcu2] at hcost
      exact ⟨m, rate, hm, hrate, hem, hcost⟩
  · unfold rejectUpdateShipment at hR
    split at hR
    · exact absurd hR (by simp)
    · rename_i s1 hrc
      injection hR with hR
      subst hR
      obtain ⟨hcar, hw, hcu, hmain⟩ := recomputeCurrent_fields hrc
      intro c hc htr
      have hc2 : carrier_lookup carriers s1.carrier = some c := hc
      obtain ⟨m, rate, hm, hrate, hem, hcost⟩ := hmain c hc2 htr
      exact ⟨m, rate, hm, hrate, hem, hcost⟩

/-- Witness for the amended C3: approving the air carrier and rejecting on
the road carrier, both resolvable in the catalog. -/
theorem approve_reject_current_fields_amended_witness :
    (approveUpdateShipment exDecCarriers exDecDistances exDecEf (some "FastAir") "ok"
        exDecShip = .ok exShipApproved ∧
     rejectUpdateShipment exDecCarriers exDecDistances exDecEf "ok" exDecShip =
        .ok exShipRejected) ∧
    ((∀ c, carrier_lookup exDecCarriers exShipApproved.carrier = some c →
        carrierTruthy c = true →
      ∃ m rate, c.mode = some m ∧ c.base_cost_per_km = some rate ∧
        exShipApproved.current_emission_kg_co2e =
          some (calc_emission exDecEf exDecShip.weight_kg
            (get_distance exDecDistances exDecShip.origin exDecShip.destination) (some m)) ∧
        exShipApproved.current_cost_usd =
          some (exDecShip.cost_usd.getD
            (calc_cost (get_distance exDecDistances exDecShip.origin exDecShip.destination)
              rate))) ∧
     (∀ c, carrier_lookup exDecCarriers exShipRejected.carrier = some c →
        carrierTruthy c = true →
      ∃ m rate, c.mode = some m ∧ c.base_cost_per_km = some rate ∧
        exShipRejected.current_emission_kg_co2e =
          some (calc_emission exDecEf exDecShip.weight_kg
            (get_distance exDecDistances exDecShip.origin exDecShip.destination) (some m)) ∧
        exShipRejected.current_cost_usd =
          some (exDecShip.cost_usd.getD
            (calc_cost (get_distance exDecDistances exDecShip.origin exDecShip.destination)
              rate)))) :=
  ⟨⟨by with_unfolding_all rfl, by with_unfolding_all rfl⟩,
   approve_reject_current_fields_amended exDecCarriers exDecDistances exDecEf
     (some "FastAir") "ok" exDecShip exShipApproved exShipRejected
     (by with_unfolding_all rfl) (by with_unfolding_all rfl)⟩

/-! ### Lemmas about `ensure_baselines` -/

/-- Once the baseline fields are present, `baselinePure` is the identity
with `changed = false`. -/
lemma baselinePure_fixpoint {ef_map : List (String × ℚ)} {d : ℚ} {mode : Option String}
    {bc : ℚ} {s0 : Shipment} (h1 : s0.original_carrier ≠ none)
    (h2 : s0.current_cost_usd ≠ none) (h3 : s0.current_emission_kg_co2e ≠ none) :
    baselinePure ef_map d mode bc s0 = (s0, false) := by
  unfold baselinePure
  simp [h1, h2, h3]

/-- `baselinePure` only touches the baseline fields, and afterwards the
original and current fields are always present. -/
lemma baselinePure_fields (ef_map : List (String × ℚ)) (d : ℚ) (mode : Option String)
    (bc : ℚ) (s0 : Shipment) :
    ((baselinePure ef_map d mode bc s0).1.origin = s0.origin ∧
     (baselinePure ef_map d mode bc s0).1.destination = s0.destination ∧
     (baselinePure ef_map d mode bc s0).1.carrier = s0.carrier ∧
     (baselinePure ef_map d mode bc s0).1.weight_kg = s0.weight_kg ∧
     (baselinePure ef_map d mode bc s0).1.cost_usd = s0.cost_usd ∧
     (baselinePure ef_map d mode bc s0).1.distance_km = s0.distance_km) ∧
    ((baselinePure ef_map d mode bc s0).1.original_carrier ≠ none ∧
     (baselinePure ef_map d mode bc s0).1.current_cost_usd ≠ none ∧
     (baselinePure ef_map d mode bc s0).1.current_emission_kg_co2e ≠ none) := by
  unfold baselinePure
  by_cases h1 : s0.original_carrier = none <;>
    by_cases h2 : s0.current_cost_usd = none ∨ s0.current_emission_kg_co2e = none <;>
      simp [h1, h2] <;> tauto

/-- `baselinePure` never overwrites present `original_*` fields. -/
lemma baselinePure_original_preserved (ef_map : List (String × ℚ)) (d : ℚ)
    (mode : Option String) (bc : ℚ) (s0 : Shipment) (oc : Option String)
    (h : s0.original_carrier = some oc) :
    (baselinePure ef_map d mode bc s0).1.original_carrier = some oc ∧
    (baselinePure ef_map d mode bc s0).1.original_cost_usd = s0.original_cost_usd ∧
    (baselinePure ef_map d mode bc s0).1.original_emission_kg_co2e =
      s0.original_emission_kg_co2e := by
  have h1 : ¬ (s0.original_carrier = none) := by rw [h]; simp
  unfold baselinePure
  by_cases h2 : s0.current_cost_usd = none ∨ s0.current_emission_kg_co2e = none <;>
    simp [h1, h2, h]

/-- Inversion of one successful `ensure_baselines` iteration. -/
lemma processShipmentBaselines_ok_inv {carriers : List Carrier}
    {distances ef_map : List (String × ℚ)} {s t : Shipment} {ch : Bool}
    (h : processShipmentBaselines carriers distances ef_map s = .ok (t, ch)) :
    ∃ mb, shipmentModeBase carriers s.carrier = .ok mb ∧
      (t, ch) = baselinePure ef_map (get_distance distances s.origin s.destination) mb.1 mb.2
        { s with distance_km := some (get_distance distances s.origin s.destination) } := by
  unfold processShipmentBaselines at h
  split at h
  · exact absurd h (by simp)
  · rename_i mb hmb
    injection h with h
    exact ⟨mb, hmb, h.symm⟩

/-- Forward evaluation of one iteration once the carrier resolution is
known. -/
lemma processShipmentBaselines_eq_of_mb {carriers : List Carrier}
    {distances ef_map : List (String × ℚ)} {s : Shipment} {mb : Option String × ℚ}
    (hmb : shipmentModeBase carriers s.carrier = .ok mb) :
    processShipmentBaselines carriers distances ef_map s =
      .ok (baselinePure ef_map (get_distance distances s.origin s.destination) mb.1 mb.2
        { s with distance_km := some (get_distance distances s.origin s.destination) }) := by
  unfold processShipmentBaselines
  rw [hmb]

/-- A second pass over the output of one iteration changes nothing. -/
lemma processShipmentBaselines_fixpoint {carriers : List Carrier}
    {distances ef_map : List (String × ℚ)} {s t : Shipment} {ch : Bool}
    (h : processShipmentBaselines carriers distances ef_map s = .ok (t, ch)) :
    processShipmentBaselines carriers distances ef_map t = .ok (t, false) := by
  obtain ⟨mb, hmb, heq⟩ := processShipmentBaselines_ok_inv h
  have ht : t = (baselinePure ef_map (get_distance distances s.origin s.destination) mb.1 mb.2
      { s with distance_km := some (get_distance distances s.origin s.destination) }).1 := by
    rw [← heq]
  have hfields := baselinePure_fields ef_map (get_distance distances s.origin s.destination)
    mb.1 mb.2 { s with distance_km := some (get_distance distances s.origin s.destination) }
  have horig : t.origin = s.origin := by rw [ht]; exact hfields.1.1
  have hdest : t.destination = s.destination := by rw [ht]; exact hfields.1.2.1
  have hcar : t.carrier = s.carrier := by rw [ht]; exact hfields.1.2.2.1
  have hdk : t.distance_km = some (get_distance distances s.origin s.destination) := by
    rw [ht]; exact hfields.1.2.2.2.2.2
  have ho : t.original_carrier ≠ none := by rw [ht]; exact hfields.2.1
  have hcc : t.current_cost_usd ≠ none := by rw [ht]; exact hfields.2.2.1
  have hce : t.current_emission_kg_co2e ≠ none := by rw [ht]; exact hfields.2.2.2
  have hmb2 : shipmentModeBase carriers t.carrier = .ok mb := by rw [hcar]; exact hmb
  rw [processShipmentBaselines_eq_of_mb hmb2]
  rw [← horig, ← hdest] at hdk
  have htt : { t with distance_km := some (get_distance distances t.origin t.destination) }
      = t := by
    obtain ⟨f1, f2, f3, f4, f5, f6, f7, f8, f9, f10, f11, f12, f13, f14, f15, f16⟩ := t
    simp only at hdk
    rw [hdk]
  rw [htt, baselinePure_fixpoint ho hcc hce]

/-- After one iteration the `original_carrier` key is always present. -/
lemma processShipmentBaselines_original_present {carriers : List Carrier}
    {distances ef_map : List (String × ℚ)} {s t : Shipment} {ch : Bool}
    (h : processShipmentBaselines carriers distances ef_map s = .ok (t, ch)) :
    t.original_carrier ≠ none := by
  obtain ⟨mb, hmb, heq⟩ := processShipmentBaselines_ok_inv h
  have ht : t = (baselinePure ef_map (get_distance distances s.origin s.destination) mb.1 mb.2
      { s with distance_km := some (get_distance distances s.origin s.destination) }).1 := by
    rw [← heq]
  rw [ht]
  exact (baselinePure_fields ef_map (get_distance distances s.origin s.destination) mb.1 mb.2
    { s with distance_km := some (get_distance distances s.origin s.destination) }).2.1

/-- A present `original_*` snapshot survives any later iteration. -/
lemma processShipmentBaselines_original_preserved {carriers : List Carrier}
    {distances ef_map : List (String × ℚ)} {s t : Shipment} {ch : Bool} {oc : Option String}
    (hoc : s.original_carrier = some oc)
    (h : processShipmentBaselines carriers distances ef_map s = .ok (t, ch)) :
    t.original_carrier = some oc ∧ t.original_cost_usd = s.original_cost_usd ∧
      t.original_emission_kg_co2e = s.original_emission_kg_co2e := by
  obtain ⟨mb, hmb, heq⟩ := processShipmentBaselines_ok_inv h
  have ht : t = (baselinePure ef_map (get_distance distances s.origin s.destination) mb.1 mb.2
      { s with distance_km := some (get_distance distances s.origin s.destination) }).1 := by
    rw [← heq]
  rw [ht]
  exact baselinePure_original_preserved ef_map (get_distance distances s.origin s.destination)
    mb.1 mb.2 { s with distance_km := some (get_distance distances s.origin s.destination) }
    oc hoc

/-- Inversion of `ensure_baselines` on a non-empty list. -/
lemma ensure_baselines_cons_inv {carriers : List Carrier}
    {distances ef_map : List (String × ℚ)} {s : Shipment} {rest : List Shipment}
    {out : List Shipment} {ch : Bool}
    (h : ensure_baselines carriers distances ef_map (s :: rest) = .ok (out, ch)) :
    ∃ r1 r2, processShipmentBaselines carriers distances ef_map s = .ok r1 ∧
      ensure_baselines carriers distances ef_map rest = .ok r2 ∧
      out = r1.1 :: r2.1 ∧ ch = (r1.2 || r2.2) := by
  unfold ensure_baselines at h
  split at h
  · exact absurd h (by simp)
  · rename_i r1 h1
    split at h
    · exact absurd h (by simp)
    · rename_i r2 h2
      injection h with h
      exact ⟨r1, r2, h1, h2, (congrArg Prod.fst h).symm, (congrArg Prod.snd h).symm⟩

/-- Forward evaluation of `ensure_baselines` on a non-empty list. -/
lemma ensure_baselines_cons_eq {carriers : List Carrier}
    {distances ef_map : List (String × ℚ)} {s : Shipment} {rest : List Shipment}
    {r1 : Shipment × Bool} {r2 : List Shipment × Bool}
    (h1 : processShipmentBaselines carriers distances ef_map s = .ok r1)
    (h2 : ensure_baselines carriers distances ef_map rest = .ok r2) :
    ensure_baselines carriers distances ef_map (s :: rest) =
      .ok (r1.1 :: r2.1, r1.2 || r2.2) := by
  unfold ensure_baselines
  rw [h1, h2]

/-- A second `ensure_baselines` pass over the output of a first pass is the
identity with `changed = false`. -/
lemma ensure_baselines_fixpoint {carriers : List Carrier}
    {distances ef_map : List (String × ℚ)} :
    ∀ {l out : List Shipment} {ch : Bool},
      ensure_baselines carriers distances ef_map l = .ok (out, ch) →
      ensure_baselines carriers distances ef_map out = .ok (out, false) := by
  intro l
  induction l with
  | nil =>
      intro out ch h
      unfold ensure_baselines at h
      injection h with h
      injection h with h1 h2
      subst h1
      rfl
  | cons s rest ih =>
      intro out ch h
      obtain ⟨r1, r2, h1, h2, hout, _⟩ := ensure_baselines_cons_inv h
      subst hout
      have hf1 : processShipmentBaselines carriers distances ef_map r1.1 = .ok (r1.1, false) :=
        processShipmentBaselines_fixpoint h1
      have hf2 : ensure_baselines carriers distances ef_map r2.1 = .ok (r2.1, false) := ih h2
      simpa using ensure_baselines_cons_eq hf1 hf2

/-- Every shipment output by `ensure_baselines` carries an
`original_carrier` snapshot. -/
lemma ensure_baselines_original_present {carriers : List Carrier}
    {distances ef_map : List (String × ℚ)} :
    ∀ {l out : List Shipment} {ch : Bool},
      ensure_baselines carriers distances ef_map l = .ok (out, ch) →
      ∀ t ∈ out, t.original_carrier ≠ none := by
  intro l
  induction l with
  | nil =>
      intro out ch h
      unfold ensure_baselines at h
      injection h with h
      injection h with h1 h2
      subst h1
      intro t ht
      exact absurd ht (by simp)
  | cons s rest ih =>
      intro out ch h
      obtain ⟨r1, r2, h1, h2, hout, _⟩ := ensure_baselines_cons_inv h
      subst hout
      intro t ht
      rcases List.mem_cons.mp ht with rfl | ht
      · exact processShipmentBaselines_original_present h1
      · exact ih h2 t ht

/-- Rewriting every assigned carrier and re-running `ensure_baselines`
leaves each shipment's `original_*` snapshot intact. -/
lemma ensure_baselines_map_preserves_original {carriers : List Carrier}
    {distances ef_map : List (String × ℚ)} (f : Shipment → Option String) :
    ∀ {l out2 : List Shipment} {ch2 : Bool},
      (∀ a ∈ l, a.original_carrier ≠ none) →
      ensure_baselines carriers distances ef_map
          (l.map (fun a => { a with carrier := f a })) = .ok (out2, ch2) →
      List.Forall₂ (fun a b =>
        b.original_carrier = a.original_carrier ∧
        b.original_cost_usd = a.original_cost_usd ∧
        b.original_emission_kg_co2e = a.original_emission_kg_co2e) l out2 := by
  intro l
  induction l with
  | nil =>
      intro out2 ch2 _ h
      unfold ensure_baselines at h
      injection h with h
      injection h with h1 h2
      subst h1
      exact List.Forall₂.nil
  | cons a rest ih =>
      intro out2 ch2 hall h
      rw [List.map_cons] at h
      obtain ⟨r1, r2, h1, h2, hout, _⟩ := ensure_baselines_cons_inv h
      subst hout
      obtain ⟨oc, hoc⟩ := Option.ne_none_iff_exists'.mp (hall a (List.mem_cons_self a rest))
      have hpres :=
        processShipmentBaselines_original_preserved
          (show ({ a with carrier := f a } : Shipment).original_carrier = some oc from hoc) h1
      exact List.Forall₂.cons ⟨by rw [hpres.1, hoc], hpres.2.1, hpres.2.2⟩
        (ih (fun x hx => hall x (List.mem_cons_of_mem a hx)) h2)

/-- C4: `ensure_baselines` is idempotent — a second call on the output of
a first call reports `changed = false`, returns the list unchanged, and
persists nothing — and the `original_*` snapshots written by the first
call survive any later call even if every assigned carrier is rewritten
in between. -/
theorem ensure_baselines_idempotent_and_original_immutable
    (carriers : List Carrier) (distances ef_map : List (String × ℚ))
    (shipments out : List Shipment) (ch : Bool) (f : Shipment → Option String)
    (h : ensure_baselines carriers distances ef_map shipments = .ok (out, ch)) :
    ensure_baselines carriers distances ef_map out = .ok (out, false) ∧
    (ensure_baselines_route carriers distances ef_map out).2 = out ∧
    ∀ out2 ch2,
      ensure_baselines carriers distances ef_map
          (out.map (fun a => { a with carrier := f a })) = .ok (out2, ch2) →
      List.Forall₂ (fun a b =>
        b.original_carrier = a.original_carrier ∧
        b.original_cost_usd = a.original_cost_usd ∧
        b.original_emission_kg_co2e = a.original_emission_kg_co2e) out out2 := by
  have hfix := ensure_baselines_fixpoint h
  refine ⟨hfix, ?_, ?_⟩
  · unfold ensure_baselines_route
    rw [hfix]
    simp
  · intro out2 ch2 h2
    exact ensure_baselines_map_preserves_original f
      (ensure_baselines_original_present h) h2

/-- Witness for C4: one shipment gains its baselines on the first call;
the second call is the identity with `changed = false`, and reassigning
the carrier to the air carrier before a third call leaves the `original_*`
snapshot untouched. -/
theorem ensure_baselines_idempotent_and_original_immutable_witness :
    ensure_baselines exDecCarriers exDecDistances exDecEf [exDecShip] =
      .ok (exBaselinedOut, true) ∧
    (ensure_baselines exDecCarriers exDecDistances exDecEf exBaselinedOut =
        .ok (exBaselinedOut, false) ∧
     (ensure_baselines_route exDecCarriers exDecDistances exDecEf exBaselinedOut).2 =
        exBaselinedOut ∧
     ∀ out2 ch2,
       ensure_baselines exDecCarriers exDecDistances exDecEf
           (exBaselinedOut.map (fun a => { a with carrier := some "FastAir" })) =
         .ok (out2, ch2) →
       List.Forall₂ (fun a b =>
         b.original_carrier = a.original_carrier ∧
         b.original_cost_usd = a.original_cost_usd ∧
         b.original_emission_kg_co2e = a.original_emission_kg_co2e) exBaselinedOut out2) :=
  ⟨by with_unfolding_all rfl,
   ensure_baselines_idempotent_and_original_immutable exDecCarriers exDecDistances exDecEf
     [exDecShip] exBaselinedOut true (fun _ => some "FastAir") (by with_unfolding_all rfl)⟩

end FlaskMockApi
